import Mathlib

/-!
Verification development for the DevEvents repository core: the
authorization-guarded, ownership-scoped event CRUD and booking subsystem.

The definitions below are a shallow embedding of the TypeScript source:
  * src/app/api/events/route.ts        (POST / DELETE / PUT route handlers)
  * src/database/event.model.ts        (EventSchema, its save and update hooks,
                                        BookingSchema with the booking-count static)
  * src/lib/actions/booking.actions.ts (getBookingCount, createBooking)
  * src/lib/actions/event.actions.ts   (getUserEvent, getSimilarEventsBySlug)
  * src/lib/mongodb.ts                 (connectDB and its module-global cache)
  * src/lib/auth-helpers.ts            (requireAuth / SessionUser)

The MongoDB document store is modelled as explicit lists of records; the
external image store (Cloudinary) is modelled as an event log of uploaded
URLs and successfully destroyed public ids, with the success of each
external call supplied as a parameter.  Store-assigned ids are natural
numbers.  Dates are parsed instants modelled as integers, with Option
capturing an unparseable value.
-/

namespace DevEvents

/-- The authenticated session user returned by requireAuth
(src/lib/auth-helpers.ts): resolved from the server-side session cookie,
never from the submitted payload. -/
structure SessionUser where
  id : String
  email : String
  deriving Repr, DecidableEq

/-- JS whitespace (the ASCII fragment of the regex class backslash-s). -/
def isSpaceChar (c : Char) : Bool :=
  c = ' ' || c = '\t' || c = '\n' || c = '\r' || c = '\x0b' || c = '\x0c'

/-- Drop characters satisfying p from both ends of a character list. -/
def trimWith (p : Char → Bool) (cs : List Char) : List Char :=
  ((cs.dropWhile p).reverse.dropWhile p).reverse

/-- JS String.prototype.trim, as applied by the mongoose trim setters. -/
def jsTrim (s : String) : String :=
  String.mk (trimWith isSpaceChar s.data)

/-- JS regex word character (the class backslash-w): alphanumeric or underscore. -/
def isWordChar (c : Char) : Bool :=
  c.isAlphanum || c = '_'

/-- Collapse every run of consecutive hyphens to a single hyphen
(the replace of the regex dash-plus by a single dash). -/
def collapseHyphens : List Char → List Char
  | [] => []
  | [c] => [c]
  | c :: d :: rest =>
    if c = '-' && d = '-' then collapseHyphens (d :: rest)
    else c :: collapseHyphens (d :: rest)

/-- Slug derivation of the pre save hook
(src/database/event.model.ts lines 110-120): lowercase, trim, remove
characters outside word/space/hyphen, turn whitespace runs into hyphens,
collapse hyphen runs, and strip leading and trailing hyphens. -/
def slugify (title : String) : String :=
  let cs := title.data.map Char.toLower
  let cs := trimWith isSpaceChar cs
  let cs := cs.filter (fun c => isWordChar c || isSpaceChar c || c = '-')
  let cs := cs.map (fun c => if isSpaceChar c then '-' else c)
  let cs := collapseHyphens cs
  let cs := trimWith (fun c => c = '-') cs
  String.mk cs

/-- Slug derivation used by the update hook
(src/database/event.model.ts lines 169-182).  The helper generateSlug is
referenced there but its definition is not under src/; the comment above
the hook says it applies the same logic as the save hook, so it is
modelled as that same derivation. -/
def generateSlug (title : String) : String :=
  slugify title

/-- A persisted Event document.  Fields follow EventSchema
(src/database/event.model.ts lines 22-99) together with the creatorId
field documented in src/SECURITY_IMPLEMENTATION.md section 1
(type String, required, trimmed).  createdAt is a logical timestamp. -/
structure EventRec where
  id : Nat
  creatorId : String
  title : String
  slug : String
  description : String
  overview : String
  image : String
  venue : String
  eventStartAt : Int
  location : String
  mode : String
  audience : String
  agenda : List String
  organizer : String
  tags : List String
  createdAt : Nat
  deriving Repr, DecidableEq

/-- A persisted Booking document (BookingSchema,
src/database/event.model.ts lines 345-376): an event reference and the
normalized booker email. -/
structure BookingRec where
  eventId : Nat
  email : String
  deriving Repr, DecidableEq

/-- The combined state: the two document-store collections plus the
external image store, the latter modelled as an append-only log of
uploaded URLs and of public ids whose destroy call succeeded. -/
structure St where
  events : List EventRec
  bookings : List BookingRec
  uploadedImages : List String
  destroyedImages : List String
  nextId : Nat
  deriving Repr, DecidableEq

/-- An HTTP response of a route handler: status code and message. -/
structure ApiResponse where
  status : Nat
  message : String
  deriving Repr, DecidableEq

/-- The structured result returned by the booking server action. -/
structure BookingResult where
  success : Bool
  message : String
  requiresAuth : Bool
  deriving Repr, DecidableEq

/-- Does the character list start with the pattern. -/
def startsWithChars : List Char → List Char → Bool
  | _, [] => true
  | [], _ :: _ => false
  | c :: cs, p :: ps => c = p && startsWithChars cs ps

/-- Does the character list contain the pattern as a contiguous run. -/
def containsChars (pat : List Char) : List Char → Bool
  | [] => startsWithChars [] pat
  | c :: rest => startsWithChars (c :: rest) pat || containsChars pat rest

/-- Substring test (JS String.prototype.includes), used for the
cloudinary check of the PUT handler and the consecutive-dots check of
the email validator. -/
def includesStr (s pat : String) : Bool :=
  containsChars pat.data s.data

/-- Split on a separator character, JS String.prototype.split with a
one-character separator. -/
def splitOnCharAux (sep : Char) : List Char → List Char → List (List Char)
  | [], acc => [acc.reverse]
  | c :: rest, acc =>
    if c = sep then acc.reverse :: splitOnCharAux sep rest []
    else splitOnCharAux sep rest (c :: acc)

/-- String-level split on a separator character. -/
def splitChar (sep : Char) (s : String) : List String :=
  (splitOnCharAux sep s.data []).map String.mk

/-- Public id derivation of the DELETE handler
(src/app/api/events/route.ts line 177): last path segment of the URL,
cut at its first dot. -/
def deletePublicId (url : String) : String :=
  match (splitChar '/' url).getLast? with
  | none => ""
  | some last =>
    match (splitChar '.' last).head? with
    | none => ""
    | some p => p

/-- Public id derivation of the PUT handler
(src/app/api/events/route.ts lines 285-287): the events folder prefix
followed by the last path segment cut at its first dot. -/
def putPublicId (url : String) : String :=
  match (splitChar '/' url).getLast? with
  | none => "events/"
  | some filename =>
    match (splitChar '.' filename).head? with
    | none => "events/"
    | some p => "events/" ++ p

/-- The payload of a create request, after form decoding: the descriptive
fields, the parsed event instant (none models an unparseable date), and
any creatorId-like entry the client put into the form. -/
structure CreatePayload where
  title : String
  description : String
  overview : String
  venue : String
  eventStartAt : Option Int
  location : String
  mode : String
  audience : String
  agenda : List String
  organizer : String
  tags : List String
  creatorId : Option String
  deriving Repr, DecidableEq

/-- A required mongoose String path accepts only values that are nonempty
after trimming. -/
def requiredNonempty (s : String) : Bool :=
  jsTrim s != ""

/-- Document validation of EventSchema on create: every required string
nonempty after trimming, agenda and tags nonempty. -/
def validCreate (p : CreatePayload) : Bool :=
  requiredNonempty p.title && requiredNonempty p.description &&
  requiredNonempty p.overview && requiredNonempty p.venue &&
  requiredNonempty p.location && requiredNonempty p.mode &&
  requiredNonempty p.audience && p.agenda.length > 0 &&
  requiredNonempty p.organizer && p.tags.length > 0

/-- The Event document built by Event.create in the POST handler: schema
trim setters applied, slug set by the pre save hook from the (trimmed)
title, creatorId taken from the server session value passed in - the
payload creatorId field is never read. -/
def mkEventDoc (id : Nat) (creatorId : String) (p : CreatePayload)
    (url : String) (startAt : Int) : EventRec :=
  { id := id
    creatorId := jsTrim creatorId
    title := jsTrim p.title
    slug := slugify (jsTrim p.title)
    description := jsTrim p.description
    overview := jsTrim p.overview
    image := jsTrim url
    venue := jsTrim p.venue
    eventStartAt := startAt
    location := jsTrim p.location
    mode := jsTrim p.mode
    audience := jsTrim p.audience
    agenda := p.agenda
    organizer := jsTrim p.organizer
    tags := p.tags
    createdAt := id }

/-- POST handler (src/app/api/events/route.ts lines 8-95).  Parameters:
the resolved session, the decoded payload, whether an image file was
present, and the outcome of the cloudinary upload call.  Mongoose
validation errors and the unique-index rejection of a duplicate slug
surface through the catch-all as status 500. -/
def postEvent (st : St) (session : Option SessionUser) (p : CreatePayload)
    (hasImageFile : Bool) (upload : Except Unit String) : ApiResponse × St :=
  match session with
  | none => ({ status := 401, message := "Unauthorized. Please sign in to create an event." }, st)
  | some user =>
    if !hasImageFile then
      ({ status := 400, message := "Image file is required" }, st)
    else
      match upload with
      | .error _ => ({ status := 500, message := "Event Creation Failed" }, st)
      | .ok url =>
        let st1 := { st with uploadedImages := st.uploadedImages ++ [url] }
        match p.eventStartAt with
        | none => ({ status := 500, message := "Event Creation Failed" }, st1)
        | some startAt =>
          if !validCreate p || jsTrim url == "" then
            ({ status := 500, message := "Event Creation Failed" }, st1)
          else
            let doc := mkEventDoc st1.nextId user.id p url startAt
            if st1.events.any (fun e => e.slug == doc.slug) then
              ({ status := 500, message := "Event Creation Failed" }, st1)
            else
              ({ status := 201, message := "Event Created Successfully" },
               { st1 with events := st1.events ++ [doc], nextId := st1.nextId + 1 })

/-- DELETE handler (src/app/api/events/route.ts lines 121-197).  The
conditional delete is filtered by id and owner; on no match the handler
distinguishes 404 from 403 by a plain existence check.  The cloudinary
destroy call is awaited inside the try block, so its rejection reaches
the catch-all and produces status 500 - after the record is already
removed from the store. -/
def deleteEvent (st : St) (session : Option SessionUser) (id? : Option Nat)
    (destroyOk : Bool) : ApiResponse × St :=
  match session with
  | none => ({ status := 401, message := "Unauthorized. Please sign in." }, st)
  | some user =>
    match id? with
    | none => ({ status := 400, message := "Missing event ID" }, st)
    | some id =>
      match st.events.find? (fun e => e.id == id && e.creatorId == user.id) with
      | none =>
        if st.events.any (fun e => e.id == id) then
          ({ status := 403, message := "Forbidden. You can only delete your own events." }, st)
        else
          ({ status := 404, message := "Event not found" }, st)
      | some deletedEvent =>
        let st1 := { st with
          events := st.events.eraseP (fun e => e.id == id && e.creatorId == user.id) }
        if deletedEvent.image != "" then
          let publicId := deletePublicId deletedEvent.image
          if publicId != "" then
            if destroyOk then
              ({ status := 200, message := "Event Deleted Successfully" },
               { st1 with destroyedImages := st1.destroyedImages ++ [publicId] })
            else
              ({ status := 500, message := "Event Deletion Failed" }, st1)
          else
            ({ status := 200, message := "Event Deleted Successfully" }, st1)
        else
          ({ status := 200, message := "Event Deleted Successfully" }, st1)

/-- The decoded PUT payload: each field optional (present in the form or
not).  eventStartAt is doubly optional: some none models a present but
unparseable date value.  A creatorId form entry, when present, flows into
the update document like every other entry. -/
structure UpdatePayload where
  title : Option String
  description : Option String
  overview : Option String
  venue : Option String
  eventStartAt : Option (Option Int)
  location : Option String
  mode : Option String
  audience : Option String
  agenda : Option (List String)
  organizer : Option String
  tags : Option (List String)
  creatorId : Option String
  deriving Repr, DecidableEq

/-- Update validators (runValidators: true): every required path that the
update touches must still satisfy its validator. -/
def validUpdate (u : UpdatePayload) : Bool :=
  (match u.title with | some t => requiredNonempty t | none => true) &&
  (match u.description with | some t => requiredNonempty t | none => true) &&
  (match u.overview with | some t => requiredNonempty t | none => true) &&
  (match u.venue with | some t => requiredNonempty t | none => true) &&
  (match u.location with | some t => requiredNonempty t | none => true) &&
  (match u.mode with | some t => requiredNonempty t | none => true) &&
  (match u.audience with | some t => requiredNonempty t | none => true) &&
  (match u.agenda with | some a => a.length > 0 | none => true) &&
  (match u.organizer with | some t => requiredNonempty t | none => true) &&
  (match u.tags with | some a => a.length > 0 | none => true) &&
  (match u.creatorId with | some t => requiredNonempty t | none => true)

/-- Application of the update document to the matched Event: every field
present in the update is set (through the schema trim setters), the slug
computed by the update hook replaces the old one when the hook fired, and
the image is replaced only when a new upload produced a URL. -/
def applyUpdate (e : EventRec) (u : UpdatePayload) (newSlug : Option String)
    (image? : Option String) : EventRec :=
  { e with
    title := match u.title with | some t => jsTrim t | none => e.title
    slug := match newSlug with | some s => s | none => e.slug
    description := match u.description with | some t => jsTrim t | none => e.description
    overview := match u.overview with | some t => jsTrim t | none => e.overview
    image := match image? with | some url => jsTrim url | none => e.image
    venue := match u.venue with | some t => jsTrim t | none => e.venue
    eventStartAt := match u.eventStartAt with | some (some t) => t | _ => e.eventStartAt
    location := match u.location with | some t => jsTrim t | none => e.location
    mode := match u.mode with | some t => jsTrim t | none => e.mode
    audience := match u.audience with | some t => jsTrim t | none => e.audience
    agenda := match u.agenda with | some a => a | none => e.agenda
    organizer := match u.organizer with | some t => jsTrim t | none => e.organizer
    tags := match u.tags with | some a => a | none => e.tags
    creatorId := match u.creatorId with | some t => jsTrim t | none => e.creatorId }

/-- Replace the first list element satisfying p, as a conditional
findOneAndUpdate touches a single matching document. -/
def replaceFirstBy (p : EventRec → Bool) (new : EventRec) : List EventRec → List EventRec
  | [] => []
  | e :: rest => if p e then new :: rest else e :: replaceFirstBy p new rest

/-- The findOneAndUpdate phase of the PUT handler, after the ownership
check and the optional image upload succeeded.  The update hook
(src/database/event.model.ts lines 169-182) regenerates the slug when the
update carries a truthy title and rejects an unparseable eventStartAt;
validators and the unique slug index reject through the catch-all as
status 500.  The old-image destroy afterwards is fired without await and
its failure is only logged, never reflected in the response. -/
def putApplyUpdate (st1 : St) (user : SessionUser) (id : Nat) (u : UpdatePayload)
    (existingEvent : EventRec) (image? : Option String) (destroyOk : Bool) :
    ApiResponse × St :=
  if u.eventStartAt = some none then
    ({ status := 500, message := "Event Update Failed" }, st1)
  else
    let newSlug := match u.title with
      | some t => if t != "" then some (generateSlug t) else none
      | none => none
    if !validUpdate u then
      ({ status := 500, message := "Event Update Failed" }, st1)
    else
      let updated := applyUpdate existingEvent u newSlug image?
      if st1.events.any (fun e => e.id != id && e.slug == updated.slug) then
        ({ status := 500, message := "Event Update Failed" }, st1)
      else
        let st2 := { st1 with
          events := replaceFirstBy (fun e => e.id == id && e.creatorId == user.id) updated st1.events }
        if image?.isSome && includesStr existingEvent.image "cloudinary" then
          if destroyOk then
            ({ status := 200, message := "Event Updated Successfully" },
             { st2 with destroyedImages := st2.destroyedImages ++ [putPublicId existingEvent.image] })
          else
            ({ status := 200, message := "Event Updated Successfully" }, st2)
        else
          ({ status := 200, message := "Event Updated Successfully" }, st2)

/-- PUT handler (src/app/api/events/route.ts lines 200-312).  Order of
phases follows the source: session check, ownership lookup with 404/403
discrimination, upload of a newly supplied image (its rejection reaches
the catch-all as 500), the conditional atomic update, then the
best-effort destroy of the superseded image. -/
def putEvent (st : St) (session : Option SessionUser) (id : Nat) (u : UpdatePayload)
    (newFile : Bool) (upload : Except Unit String) (destroyOk : Bool) :
    ApiResponse × St :=
  match session with
  | none => ({ status := 401, message := "Unauthorized. Please sign in." }, st)
  | some user =>
    match st.events.find? (fun e => e.id == id && e.creatorId == user.id) with
    | none =>
      if st.events.any (fun e => e.id == id) then
        ({ status := 403, message := "Forbidden. You can only update your own events." }, st)
      else
        ({ status := 404, message := "Event not found" }, st)
    | some existingEvent =>
      if newFile then
        match upload with
        | .error _ => ({ status := 500, message := "Event Update Failed" }, st)
        | .ok url =>
          putApplyUpdate { st with uploadedImages := st.uploadedImages ++ [url] }
            user id u existingEvent (some url) destroyOk
      else
        putApplyUpdate st user id u existingEvent none destroyOk

/-- Email normalization applied by the mongoose lowercase and trim
setters of the Booking email path, both on save and when casting query
filters. -/
def normalizeEmail (email : String) : String :=
  String.mk ((jsTrim email).data.map Char.toLower)

/-- A character admissible anywhere outside the local dot positions of
the email regex: not whitespace, not the at sign, not a dot. -/
def isEmailAtomChar (c : Char) : Bool :=
  !isSpaceChar c && c != '@' && c != '.'

/-- A character admissible in the tail of the local part: not whitespace
and not the at sign (dots allowed). -/
def isLocalRestChar (c : Char) : Bool :=
  !isSpaceChar c && c != '@'

/-- The email validator of BookingSchema (src/database/event.model.ts
lines 357-365): the conservative shape regex - first local character not
a dot, exactly one at sign, domain of exactly one dot with a tld of at
least two characters - plus the separate rejection of consecutive
dots. -/
def validEmail (email : String) : Bool :=
  (match splitChar '@' email with
   | [localPart, domain] =>
     (match localPart.data with
      | [] => false
      | c :: rest => isEmailAtomChar c && rest.all isLocalRestChar) &&
     (match splitChar '.' domain with
      | [dom, tld] =>
        dom != "" && dom.data.all isEmailAtomChar &&
        tld.length ≥ 2 && tld.data.all isEmailAtomChar
      | _ => false)
   | _ => false) &&
  !includesStr email ".."

/-- The booking-count static of BookingSchema
(src/database/event.model.ts lines 383-393): a plain countDocuments on
the eventId. -/
def getBookingCountByEventId (st : St) (eventId : Nat) : Nat :=
  (st.bookings.filter (fun b => b.eventId == eventId)).length

/-- getBookingCount (src/lib/actions/booking.actions.ts lines 13-22):
any underlying failure is caught and reported as zero.  dbOk models
whether the store calls succeed. -/
def getBookingCount (st : St) (eventId : Nat) (dbOk : Bool) : Nat :=
  if dbOk then getBookingCountByEventId st eventId else 0

/-- createBooking (src/lib/actions/booking.actions.ts lines 28-79).
Session check first; then the duplicate check by (eventId, email); then
Booking.create, whose validation (email shape) and pre save referential
check (the referenced event must exist) both surface through the catch
as a generic failure result.  dbOk models the store being reachable. -/
def createBooking (st : St) (session : Option SessionUser) (eventId : Nat)
    (email : String) (dbOk : Bool) : BookingResult × St :=
  match session with
  | none =>
    ({ success := false, message := "Please sign in to book an event", requiresAuth := true }, st)
  | some _user =>
    if !dbOk then
      ({ success := false, message := "Failed to create booking. Please try again.", requiresAuth := false }, st)
    else
      let q := normalizeEmail email
      match st.bookings.find? (fun b => b.eventId == eventId && b.email == q) with
      | some _ =>
        ({ success := false, message := "You have already booked this event", requiresAuth := false }, st)
      | none =>
        if validEmail q && st.events.any (fun e => e.id == eventId) then
          ({ success := true, message := "Booking successful!", requiresAuth := false },
           { st with bookings := st.bookings ++ [{ eventId := eventId, email := q }] })
        else
          ({ success := false, message := "Failed to create booking. Please try again.", requiresAuth := false }, st)

/-- getUserEvent (src/lib/actions/event.actions.ts lines 69-89): single
lookup filtered by id and owner; no session, a store failure, a missing
id and a foreign owner all come back as none. -/
def getUserEvent (st : St) (session : Option SessionUser) (eventId : Nat)
    (dbOk : Bool) : Option EventRec :=
  match session with
  | none => none
  | some user =>
    if !dbOk then none
    else st.events.find? (fun e => e.id == eventId && e.creatorId == user.id)

/-- getSimilarEventsBySlug (src/lib/actions/event.actions.ts lines
92-104): find the source event by slug, then list the events with a
different id sharing at least one tag.  When the slug matches nothing,
the subsequent find runs with undefined operands, whose cast failure is
caught and the function returns the empty list; likewise for any store
failure. -/
def getSimilarEventsBySlug (st : St) (slug : String) (dbOk : Bool) : List EventRec :=
  if !dbOk then []
  else
    match st.events.find? (fun e => e.slug == slug) with
    | none => []
    | some ev =>
      st.events.filter (fun e => e.id != ev.id && e.tags.any (fun t => ev.tags.contains t))

/-- Outcome of a connection attempt, carrying the handle on success. -/
inductive ConnAttempt where
  | ok (handle : Nat)
  | fail
  deriving Repr, DecidableEq

/-- The module-global mongoose cache of src/lib/mongodb.ts: the
established connection, and the in-flight attempt promise together with
its eventual outcome. -/
structure MongooseCache where
  conn : Option Nat
  promise : Option ConnAttempt
  deriving Repr, DecidableEq

/-- What one connectDB call produces: the value returned or error
propagated, the cache afterwards, and whether this call started a new
connection attempt (rather than reusing the cached handle or an
in-flight promise). -/
structure ConnectOutcome where
  result : Except Unit Nat
  cache : MongooseCache
  startedNewAttempt : Bool
  deriving Repr

/-- connectDB (src/lib/mongodb.ts lines 53-76): return the cached
connection if set; otherwise await the in-flight promise, starting one
when there is none (fresh is the outcome such a new attempt would have).
On success the connection is cached; on failure the promise is cleared
and the error is rethrown to the caller. -/
def connectDB (cache : MongooseCache) (fresh : ConnAttempt) : ConnectOutcome :=
  match cache.conn with
  | some c => { result := .ok c, cache := cache, startedNewAttempt := false }
  | none =>
    let started := cache.promise.isNone
    let attempt := match cache.promise with
      | some p => p
      | none => fresh
    match attempt with
    | .ok h =>
      { result := .ok h
        cache := { conn := some h, promise := some (.ok h) }
        startedNewAttempt := started }
    | .fail =>
      { result := .error ()
        cache := { conn := none, promise := none }
        startedNewAttempt := started }

/-- The uniqueness-in-effect invariant of the booking store: no two
Booking records share both eventId and email. -/
def bookingKeysUnique (st : St) : Prop :=
  st.bookings.Pairwise (fun a b => ¬(a.eventId = b.eventId ∧ a.email = b.email))

/-- The slug uniqueness invariant enforced by the unique index on the
slug path. -/
def slugsUnique (es : List EventRec) : Prop :=
  es.Pairwise (fun a b => a.slug ≠ b.slug)

/-- Characters a slug may contain: alphanumeric, underscore, hyphen. -/
def urlSafeChar (c : Char) : Bool :=
  c.isAlphanum || c = '_' || c = '-'

/- Concrete fixtures used by witnesses and counterexamples. -/

/-- The empty initial state. -/
def st0 : St :=
  { events := [], bookings := [], uploadedImages := [], destroyedImages := [], nextId := 1 }

/-- A first authenticated user. -/
def userA : SessionUser := { id := "user-a", email := "a@mail.com" }

/-- A second authenticated user. -/
def userB : SessionUser := { id := "user-b", email := "b@mail.com" }

/-- A valid create payload, carrying a spoofed creatorId-like entry. -/
def pLaunch : CreatePayload :=
  { title := "Launch", description := "d", overview := "o", venue := "v",
    eventStartAt := some 1700000000, location := "l", mode := "online",
    audience := "devs", agenda := ["intro"], organizer := "org", tags := ["ai"],
    creatorId := some "EVIL" }

/-- A second valid payload with the same title as pLaunch. -/
def pLaunchAgain : CreatePayload :=
  { title := "Launch", description := "d2", overview := "o2", venue := "v2",
    eventStartAt := some 1800000000, location := "l2", mode := "onsite",
    audience := "devs", agenda := ["talks"], organizer := "org2", tags := ["web"],
    creatorId := none }

/-- A cloudinary-hosted upload URL. -/
def urlCloud : String := "https://res.cloudinary.com/demo/image/upload/abc.png"

/-- A second cloudinary-hosted upload URL. -/
def urlCloud2 : String := "https://res.cloudinary.com/demo/image/upload/def.png"

/-- The all-absent update payload. -/
def uEmpty : UpdatePayload :=
  { title := none, description := none, overview := none, venue := none,
    eventStartAt := none, location := none, mode := none, audience := none,
    agenda := none, organizer := none, tags := none, creatorId := none }

/-- An update payload whose only entry is a creatorId field. -/
def uSetCreator : UpdatePayload :=
  { uEmpty with creatorId := some "user-b" }

/-- An update payload changing only the title. -/
def uRetitle : UpdatePayload :=
  { uEmpty with title := some "Launch v2" }

/-- An event of user-a with a cloudinary-hosted image. -/
def evCloud : EventRec :=
  { id := 1, creatorId := "user-a", title := "Launch", slug := "launch",
    description := "d", overview := "o", image := urlCloud, venue := "v",
    eventStartAt := 1700000000, location := "l", mode := "online",
    audience := "devs", agenda := ["intro"], organizer := "org", tags := ["ai"],
    createdAt := 1 }

/-- A one-event state owned by user-a. -/
def stOne : St :=
  { events := [evCloud], bookings := [], uploadedImages := [urlCloud],
    destroyedImages := [], nextId := 2 }

/-- A one-event state owned by user-b. -/
def stOneB : St :=
  { stOne with events := [{ evCloud with creatorId := "user-b" }] }

/- Helper lemmas about the character pipeline of slugify. -/

/-- Membership is preserved backwards through dropWhile. -/
theorem mem_of_mem_dropWhile {c : Char} {p : Char → Bool} :
    ∀ {l : List Char}, c ∈ l.dropWhile p → c ∈ l
  | [], h => h
  | d :: rest, h => by
    rw [List.dropWhile] at h
    cases hd : p d with
    | true =>
      rw [hd] at h
      exact List.mem_cons_of_mem _ (mem_of_mem_dropWhile h)
    | false =>
      rw [hd] at h
      exact h

/-- Membership is preserved backwards through trimWith. -/
theorem mem_of_mem_trimWith {c : Char} {p : Char → Bool} {l : List Char}
    (h : c ∈ trimWith p l) : c ∈ l := by
  unfold trimWith at h
  rw [List.mem_reverse] at h
  have h1 := mem_of_mem_dropWhile h
  rw [List.mem_reverse] at h1
  exact mem_of_mem_dropWhile h1

/-- Membership is preserved backwards through collapseHyphens. -/
theorem mem_of_mem_collapseHyphens {c : Char} :
    ∀ {l : List Char}, c ∈ collapseHyphens l → c ∈ l
  | [], h => h
  | [d], h => h
  | d :: e :: rest, h => by
    rw [collapseHyphens] at h
    by_cases hde : (d = '-' && e = '-') = true
    · rw [if_pos hde] at h
      exact List.mem_cons_of_mem _ (mem_of_mem_collapseHyphens h)
    · rw [if_neg hde] at h
      rcases List.mem_cons.1 h with h1 | h2
      · exact h1 ▸ List.mem_cons_self _ _
      · exact List.mem_cons_of_mem _ (mem_of_mem_collapseHyphens h2)

/-- Every character of a generated slug is alphanumeric, an underscore or
a hyphen. -/
theorem slugify_chars_urlSafe (t : String) :
    ∀ c ∈ (slugify t).data, urlSafeChar c = true := by
  intro c hc
  have hc2 : c ∈ trimWith (fun c => c = '-') (collapseHyphens
      ((List.filter (fun c => isWordChar c || isSpaceChar c || c = '-')
          (trimWith isSpaceChar (t.data.map Char.toLower))).map
        (fun c => if isSpaceChar c then '-' else c))) := hc
  have h1 := mem_of_mem_collapseHyphens (mem_of_mem_trimWith hc2)
  rcases List.mem_map.1 h1 with ⟨a, ha, hac⟩
  have ha2 := (List.mem_filter.1 ha).2
  by_cases hsp : isSpaceChar a = true
  · rw [if_pos hsp] at hac
    subst hac
    rfl
  · rw [if_neg hsp] at hac
    subst hac
    rw [Bool.not_eq_true] at hsp
    rw [hsp, Bool.or_false] at ha2
    rcases Bool.or_eq_true_iff.1 ha2 with hw | hh
    · unfold isWordChar at hw
      unfold urlSafeChar
      rcases Bool.or_eq_true_iff.1 hw with h | h <;> simp [h]
    · unfold urlSafeChar
      simp [hh]

/- Claim theorems. -/

/-- Claim C5: a booking Create invocation with no authenticated session
returns the structured result with success false and requiresAuth true,
and leaves the state (in particular the Booking collection) unchanged. -/
theorem c5_unauth_booking_structured_result (st : St) (eventId : Nat)
    (email : String) (dbOk : Bool) :
    createBooking st none eventId email dbOk =
      ({ success := false, message := "Please sign in to book an event",
         requiresAuth := true }, st) := rfl

/-- Claim C10: getUserEvent answers none in all four situations - caller
unauthenticated, store lookup failing, no event with the id, and the
event owned by a different identity - so the interface does not
distinguish them. -/
theorem c10_getUserEvent_none_uniform (st : St) (user : SessionUser)
    (eventId : Nat) (dbOk : Bool) :
    (getUserEvent st none eventId dbOk = none) ∧
    (getUserEvent st (some user) eventId false = none) ∧
    ((∀ e ∈ st.events, e.id ≠ eventId) →
      getUserEvent st (some user) eventId true = none) ∧
    ((∀ e ∈ st.events, e.id = eventId → e.creatorId ≠ user.id) →
      getUserEvent st (some user) eventId true = none) := by
  refine ⟨rfl, rfl, ?_, ?_⟩
  · intro h
    simp only [getUserEvent, Bool.not_true]
    rw [if_neg (by simp), List.find?_eq_none]
    intro e he
    simp [h e he]
  · intro h
    simp only [getUserEvent, Bool.not_true]
    rw [if_neg (by simp), List.find?_eq_none]
    intro e he
    by_cases hid : e.id = eventId
    · simp [hid, h e he hid]
    · simp [hid]

/-- Claim C10 witness: concrete instances of the four none cases. -/
theorem c10_witness :
    getUserEvent stOneB none 1 true = none ∧
    getUserEvent stOneB (some userA) 1 false = none ∧
    getUserEvent stOneB (some userA) 2 true = none ∧
    getUserEvent stOneB (some userA) 1 true = none := by
  have h := c10_getUserEvent_none_uniform stOneB userA 1 true
  have h2 := c10_getUserEvent_none_uniform stOneB userA 2 true
  exact ⟨h.1, h.2.1, h2.2.2.1 (by decide), h.2.2.2 (by decide)⟩

/-- Claim C7: the similar-events query never surfaces an error - a store
failure or an unknown slug yields the empty sequence - and every event
it does return is distinct from the source event and shares at least one
tag with it. -/
theorem c7_similar_events_degrade (st : St) (slug : String) :
    (getSimilarEventsBySlug st slug false = []) ∧
    (st.events.find? (fun e => e.slug == slug) = none →
      getSimilarEventsBySlug st slug true = []) ∧
    (∀ src, st.events.find? (fun e => e.slug == slug) = some src →
      ∀ e ∈ getSimilarEventsBySlug st slug true,
        e.id ≠ src.id ∧ ∃ t ∈ e.tags, t ∈ src.tags) := by
  refine ⟨rfl, ?_, ?_⟩
  · intro h
    simp [getSimilarEventsBySlug, h]
  · intro src hsrc e he
    simp only [getSimilarEventsBySlug, Bool.not_true, if_neg, hsrc] at he
    rw [if_neg (by simp)] at he
    have h2 := (List.mem_filter.1 he).2
    rw [Bool.and_eq_true] at h2
    refine ⟨by simpa using h2.1, ?_⟩
    rcases List.any_eq_true.1 h2.2 with ⟨t, ht, htm⟩
    exact ⟨t, ht, by simpa using htm⟩

/-- Claim C7 witness: with one persisted event, looking up a missing slug
or a failing store gives the empty list, and the similar list of the
existing slug satisfies the distinctness and shared-tag properties. -/
theorem c7_witness :
    getSimilarEventsBySlug stOne "launch" false = [] ∧
    getSimilarEventsBySlug stOne "no-such-slug" true = [] ∧
    (∀ e ∈ getSimilarEventsBySlug stOne "launch" true,
      e.id ≠ evCloud.id ∧ ∃ t ∈ e.tags, t ∈ evCloud.tags) := by
  have h := c7_similar_events_degrade stOne "launch"
  have h2 := c7_similar_events_degrade stOne "no-such-slug"
  exact ⟨h.1, h2.2.1 (by decide), h.2.2 evCloud (by decide)⟩

/-- Claim C8: one cached connection attempt - after a success every
subsequent call returns the same cached handle without starting a new
attempt; a failed attempt propagates the error to its caller, is
discarded from the cache, and the next call starts afresh instead of
observing the stale failure. -/
theorem c8_connection_cache (cache : MongooseCache) (c h : Nat)
    (next : ConnAttempt) :
    (cache.conn = some c →
      connectDB cache next =
        { result := .ok c, cache := cache, startedNewAttempt := false }) ∧
    (connectDB { conn := none, promise := none } (.ok h) =
      { result := .ok h,
        cache := { conn := some h, promise := some (.ok h) },
        startedNewAttempt := true }) ∧
    (connectDB (connectDB { conn := none, promise := none } (.ok h)).cache next =
      { result := .ok h,
        cache := { conn := some h, promise := some (.ok h) },
        startedNewAttempt := false }) ∧
    (connectDB { conn := none, promise := none } .fail =
      { result := .error (), cache := { conn := none, promise := none },
        startedNewAttempt := true }) ∧
    ((connectDB (connectDB { conn := none, promise := none } .fail).cache next).startedNewAttempt = true) := by
  refine ⟨?_, rfl, rfl, rfl, ?_⟩
  · intro hc
    unfold connectDB
    rw [hc]
  · cases next <;> rfl

/-- Claim C8 witness: concrete cache states exercising the cached-handle
case and the discarded-failure case. -/
theorem c8_witness :
    connectDB { conn := some 5, promise := some (.ok 5) } .fail =
      { result := .ok 5,
        cache := { conn := some 5, promise := some (.ok 5) },
        startedNewAttempt := false } ∧
    (connectDB (connectDB { conn := none, promise := none } .fail).cache (.ok 9)).startedNewAttempt = true := by
  have h := c8_connection_cache { conn := some 5, promise := some (.ok 5) } 5 9 (.ok 9)
  have h2 := c8_connection_cache { conn := none, promise := none } 5 9 (.ok 9)
  exact ⟨(c8_connection_cache { conn := some 5, promise := some (.ok 5) } 5 9 .fail).1 rfl,
         h2.2.2.2.2⟩

/-- Claim C9: deleting an event leaves the Booking collection untouched -
bookings referencing the deleted event persist and keep contributing to
the booking count - and the referential check on eventId runs only at
booking creation, where a missing event makes createBooking fail without
mutating the store. -/
theorem c9_delete_frames_bookings (st : St) (session : Option SessionUser)
    (id? : Option Nat) (destroyOk : Bool) (eid : Nat) (user : SessionUser)
    (em : String) :
    ((deleteEvent st session id? destroyOk).2.bookings = st.bookings) ∧
    (getBookingCount (deleteEvent st session id? destroyOk).2 eid true =
      getBookingCount st eid true) ∧
    ((∀ e ∈ st.events, e.id ≠ eid) →
      (createBooking st (some user) eid em true).2 = st ∧
      (createBooking st (some user) eid em true).1.success = false) := by
  have hb : (deleteEvent st session id? destroyOk).2.bookings = st.bookings := by
    unfold deleteEvent
    split
    · rfl
    · split
      · rfl
      · split
        · split <;> rfl
        · dsimp only
          split
          · split
            · split <;> rfl
            · rfl
          · rfl
  refine ⟨hb, ?_, ?_⟩
  · simp only [getBookingCount, getBookingCountByEventId, hb, if_true]
  · intro h
    have hany : st.events.any (fun e => e.id == eid) = false := by
      rw [List.any_eq_false]
      intro e he
      simp [h e he]
    cases hfind : st.bookings.find?
        (fun b => b.eventId == eid && b.email == normalizeEmail em) with
    | some b => constructor <;> simp [createBooking, hfind]
    | none => constructor <;> simp [createBooking, hfind, hany]

/-- A state with one event of user-a and one booking for it. -/
def stBk : St := { stOne with bookings := [{ eventId := 1, email := "a@mail.com" }] }

/-- Claim C9 witness: after user-a deletes event 1, its booking is still
stored and still counted, and creating a booking for the now missing
event id 2 fails without mutating the store. -/
theorem c9_witness :
    (deleteEvent stBk (some userA) (some 1) true).2.bookings = stBk.bookings ∧
    getBookingCount (deleteEvent stBk (some userA) (some 1) true).2 1 true =
      getBookingCount stBk 1 true ∧
    (createBooking stBk (some userA) 2 "a@mail.com" true).2 = stBk ∧
    (createBooking stBk (some userA) 2 "a@mail.com" true).1.success = false := by
  have h1 := c9_delete_frames_bookings stBk (some userA) (some 1) true 1 userA "a@mail.com"
  have h2 := c9_delete_frames_bookings stBk (some userA) (some 1) true 2 userA "a@mail.com"
  have h3 := h2.2.2 (by decide)
  exact ⟨h1.1, h1.2.1, h3.1, h3.2⟩

/-- Claim C2: with an identity present, Update and Delete on an event id
owned by someone else answer 403 Forbidden, and on an id matching no
event answer 404 Not Found; in each of these failures the whole state -
event records and the external image store - is returned unchanged. -/
theorem c2_update_delete_forbidden_notfound (st : St) (user : SessionUser)
    (id : Nat) (u : UpdatePayload) (newFile : Bool) (upload : Except Unit String)
    (destroyOk : Bool) :
    ((∃ e ∈ st.events, e.id = id) →
     (∀ e ∈ st.events, e.id = id → e.creatorId ≠ user.id) →
      deleteEvent st (some user) (some id) destroyOk =
        ({ status := 403, message := "Forbidden. You can only delete your own events." }, st) ∧
      putEvent st (some user) id u newFile upload destroyOk =
        ({ status := 403, message := "Forbidden. You can only update your own events." }, st)) ∧
    ((∀ e ∈ st.events, e.id ≠ id) →
      deleteEvent st (some user) (some id) destroyOk =
        ({ status := 404, message := "Event not found" }, st) ∧
      putEvent st (some user) id u newFile upload destroyOk =
        ({ status := 404, message := "Event not found" }, st)) := by
  constructor
  · rintro ⟨e0, he0, hid0⟩ hforeign
    have hfind : st.events.find? (fun e => e.id == id && e.creatorId == user.id) = none := by
      rw [List.find?_eq_none]
      intro e he
      simp only [Bool.and_eq_true, beq_iff_eq, not_and]
      intro h1
      simpa using hforeign e he h1
    have hany : st.events.any (fun e => e.id == id) = true := by
      rw [List.any_eq_true]
      exact ⟨e0, he0, by simp [hid0]⟩
    constructor
    · simp [deleteEvent, hfind, hany]
    · simp [putEvent, hfind, hany]
  · intro hmiss
    have hfind : st.events.find? (fun e => e.id == id && e.creatorId == user.id) = none := by
      rw [List.find?_eq_none]
      intro e he
      simp [hmiss e he]
    have hany : st.events.any (fun e => e.id == id) = false := by
      rw [List.any_eq_false]
      intro e he
      simp [hmiss e he]
    constructor
    · simp [deleteEvent, hfind, hany]
    · simp [putEvent, hfind, hany]

/-- Claim C2 witness: user-a deleting or updating the event of user-b
gets 403 with the state unchanged, and gets 404 on an id that matches no
event, again with the state unchanged. -/
theorem c2_witness :
    deleteEvent stOneB (some userA) (some 1) true =
      ({ status := 403, message := "Forbidden. You can only delete your own events." }, stOneB) ∧
    putEvent stOneB (some userA) 1 uRetitle false (.error ()) true =
      ({ status := 403, message := "Forbidden. You can only update your own events." }, stOneB) ∧
    deleteEvent stOneB (some userA) (some 7) true =
      ({ status := 404, message := "Event not found" }, stOneB) ∧
    putEvent stOneB (some userA) 7 uRetitle false (.error ()) true =
      ({ status := 404, message := "Event not found" }, stOneB) := by
  have h1 := (c2_update_delete_forbidden_notfound stOneB userA 1 uRetitle false (.error ()) true).1
      (by decide) (by decide)
  have h2 := (c2_update_delete_forbidden_notfound stOneB userA 7 uRetitle false (.error ()) true).2
      (by decide)
  exact ⟨h1.1, h1.2, h2.1, h2.2⟩

/-- Claim C3: the pair of eventId and email is unique in effect - every
createBooking call preserves the at-most-one invariant - and invoking
Create twice with identical arguments persists exactly one Booking, the
second call answering a non-success already-booked result without
mutating the state. -/
theorem c3_booking_at_most_one (st : St) (user : SessionUser) (eid : Nat)
    (em : String) (hU : bookingKeysUnique st) :
    (∀ session dbOk, bookingKeysUnique (createBooking st session eid em dbOk).2) ∧
    (st.bookings.find? (fun b => b.eventId == eid && b.email == normalizeEmail em) = none →
     validEmail (normalizeEmail em) = true →
     st.events.any (fun e => e.id == eid) = true →
      (createBooking st (some user) eid em true).1.success = true ∧
      (createBooking (createBooking st (some user) eid em true).2 (some user) eid em true).1 =
        { success := false, message := "You have already booked this event",
          requiresAuth := false } ∧
      (createBooking (createBooking st (some user) eid em true).2 (some user) eid em true).2 =
        (createBooking st (some user) eid em true).2 ∧
      ((createBooking st (some user) eid em true).2.bookings.filter
        (fun b => b.eventId == eid && b.email == normalizeEmail em)).length = 1) := by
  constructor
  · intro session dbOk
    cases session with
    | none => exact hU
    | some s =>
      cases dbOk with
      | false => exact hU
      | true =>
        cases hfind2 : st.bookings.find?
            (fun b => b.eventId == eid && b.email == normalizeEmail em) with
        | some b => simpa [createBooking, hfind2] using hU
        | none =>
          by_cases hc : (validEmail (normalizeEmail em) &&
              st.events.any (fun e => e.id == eid)) = true
          · have hst : (createBooking st (some s) eid em true).2 =
                { st with bookings :=
                    st.bookings ++ [{ eventId := eid, email := normalizeEmail em }] } := by
              simp [createBooking, hfind2, hc]
            rw [hst]
            unfold bookingKeysUnique
            dsimp only
            rw [List.pairwise_append]
            refine ⟨hU, List.pairwise_singleton _ _, ?_⟩
            intro a ha b hb
            rw [List.mem_singleton] at hb
            subst hb
            rw [List.find?_eq_none] at hfind2
            have h2 := hfind2 a ha
            simp only [Bool.and_eq_true, beq_iff_eq] at h2
            dsimp only
            rintro ⟨h3, h4⟩
            exact h2 ⟨h3, h4⟩
          · simpa [createBooking, hfind2, hc] using hU
  · intro hfind hmail hany
    have hrun : createBooking st (some user) eid em true =
        ({ success := true, message := "Booking successful!", requiresAuth := false },
         { st with bookings :=
             st.bookings ++ [{ eventId := eid, email := normalizeEmail em }] }) := by
      simp [createBooking, hfind, hmail, hany]
    have hfind2 : (st.bookings ++
          [({ eventId := eid, email := normalizeEmail em } : BookingRec)]).find?
        (fun b => b.eventId == eid && b.email == normalizeEmail em) =
        some { eventId := eid, email := normalizeEmail em } := by
      rw [List.find?_append, hfind]
      simp
    refine ⟨by rw [hrun], ?_, ?_, ?_⟩
    · rw [hrun]
      simp [createBooking, hfind2]
    · rw [hrun]
      simp [createBooking, hfind2]
    · rw [hrun]
      dsimp only
      rw [List.filter_append]
      have hnil : st.bookings.filter
          (fun b => b.eventId == eid && b.email == normalizeEmail em) = [] := by
        rw [List.filter_eq_nil_iff]
        rw [List.find?_eq_none] at hfind
        exact hfind
      rw [hnil]
      simp

/-- Claim C3 witness: with one event and an empty booking store, the
first create succeeds, the second identical create reports already
booked without mutating anything, and exactly one matching Booking is
persisted. -/
theorem c3_witness :
    (createBooking stOne (some userA) 1 "A@Mail.com" true).1.success = true ∧
    (createBooking (createBooking stOne (some userA) 1 "A@Mail.com" true).2
        (some userA) 1 "A@Mail.com" true).1 =
      { success := false, message := "You have already booked this event",
        requiresAuth := false } ∧
    (createBooking (createBooking stOne (some userA) 1 "A@Mail.com" true).2
        (some userA) 1 "A@Mail.com" true).2 =
      (createBooking stOne (some userA) 1 "A@Mail.com" true).2 ∧
    ((createBooking stOne (some userA) 1 "A@Mail.com" true).2.bookings.filter
      (fun b => b.eventId == 1 && b.email == normalizeEmail "A@Mail.com")).length = 1 := by
  have h := (c3_booking_at_most_one stOne userA 1 "A@Mail.com"
      (by unfold bookingKeysUnique; exact List.Pairwise.nil)).2
      (by decide) (by decide) (by decide)
  exact h

/-- Claim C1, evaluated at the failing input: creation forces creatorId
to the server-session identity and ignores the spoofed payload entry,
but the record does not retain it - an owner update whose form data
carries a creatorId field overwrites the persisted creatorId, here from
user-a to user-b. -/
theorem c1_creatorId_not_retained :
    (postEvent st0 (some userA) pLaunch true (.ok urlCloud)).1.status = 201 ∧
    (postEvent st0 (some userA) pLaunch true (.ok urlCloud)).2.events.map
      EventRec.creatorId = ["user-a"] ∧
    (putEvent (postEvent st0 (some userA) pLaunch true (.ok urlCloud)).2
        (some userA) 1 uSetCreator false (.error ()) true).1.status = 200 ∧
    (putEvent (postEvent st0 (some userA) pLaunch true (.ok urlCloud)).2
        (some userA) 1 uSetCreator false (.error ()) true).2.events.map
      EventRec.creatorId = ["user-b"] :=
  ⟨rfl, rfl, rfl, rfl⟩

/-- Claim C4 counterexample: the persisted slug of a created event is
exactly the deterministic derivation of its title - for the title Launch
it is the string launch, with no random disambiguating suffix appended -
and a second create with the same title is rejected with status 500 by
the unique index instead of succeeding under a disambiguated slug. -/
theorem c4_counterexample :
    (postEvent st0 (some userA) pLaunch true (.ok urlCloud)).1.status = 201 ∧
    (postEvent st0 (some userA) pLaunch true (.ok urlCloud)).2.events.map
      EventRec.slug = ["launch"] ∧
    slugify "Launch" = "launch" ∧
    (postEvent (postEvent st0 (some userA) pLaunch true (.ok urlCloud)).2
        (some userA) pLaunchAgain true (.ok urlCloud2)).1.status = 500 ∧
    (postEvent (postEvent st0 (some userA) pLaunch true (.ok urlCloud)).2
        (some userA) pLaunchAgain true (.ok urlCloud2)).2.events =
      (postEvent st0 (some userA) pLaunch true (.ok urlCloud)).2.events :=
  ⟨rfl, rfl, rfl, rfl, rfl⟩

/-- Claim C4 (amended): slugs are URL-safe and derived deterministically
from the title alone - no random suffix; global uniqueness is enforced
by the unique slug index, which rejects a duplicate instead of
disambiguating it; and the slug is regenerated whenever the title
changes, in particular a successful owner update carrying a new title
stores the freshly derived slug. -/
theorem c4_slug_amended (t : String) (st : St) (user : SessionUser)
    (p : CreatePayload) (url : String) (startAt : Int) (id : Nat)
    (u : UpdatePayload) (nt : String) (ev : EventRec) (destroyOk : Bool) :
    (∀ c ∈ (slugify t).data, urlSafeChar c = true) ∧
    (p.eventStartAt = some startAt → validCreate p = true →
     (jsTrim url == "") = false →
     st.events.any (fun e => e.slug == slugify (jsTrim p.title)) = false →
      postEvent st (some user) p true (.ok url) =
        ({ status := 201, message := "Event Created Successfully" },
         { st with uploadedImages := st.uploadedImages ++ [url],
                   events := st.events ++ [mkEventDoc st.nextId user.id p url startAt],
                   nextId := st.nextId + 1 }) ∧
      (mkEventDoc st.nextId user.id p url startAt).slug =
        slugify (mkEventDoc st.nextId user.id p url startAt).title ∧
      (slugsUnique st.events →
        slugsUnique (st.events ++ [mkEventDoc st.nextId user.id p url startAt]))) ∧
    (st.events.find? (fun e => e.id == id && e.creatorId == user.id) = some ev →
     u.title = some nt → (nt != "") = true →
     u.eventStartAt ≠ some none → validUpdate u = true →
     st.events.any (fun e => e.id != id && e.slug == generateSlug nt) = false →
      putEvent st (some user) id u false (.error ()) destroyOk =
        ({ status := 200, message := "Event Updated Successfully" },
         { st with events := (replaceFirstBy (fun e => e.id == id && e.creatorId == user.id)
             (applyUpdate ev u (some (generateSlug nt)) none) st.events) }) ∧
      (applyUpdate ev u (some (generateSlug nt)) none).slug = generateSlug nt) := by
  refine ⟨slugify_chars_urlSafe t, ?_, ?_⟩
  · intro h1 h2 h3 h4
    have hpost : postEvent st (some user) p true (.ok url) =
        ({ status := 201, message := "Event Created Successfully" },
         { st with uploadedImages := st.uploadedImages ++ [url],
                   events := st.events ++ [mkEventDoc st.nextId user.id p url startAt],
                   nextId := st.nextId + 1 }) := by
      simp only [postEvent, h1]
      rw [h2, h3]
      simp only [Bool.not_true, Bool.or_false, if_false, Bool.false_eq_true]
      have h4x : st.events.any
          (fun e => e.slug == (mkEventDoc st.nextId user.id p url startAt).slug) = false := h4
      rw [h4x]
      simp
    refine ⟨hpost, rfl, ?_⟩
    intro hU
    unfold slugsUnique
    rw [List.pairwise_append]
    refine ⟨hU, List.pairwise_singleton _ _, ?_⟩
    intro a ha b hb
    rw [List.mem_singleton] at hb
    subst hb
    rw [List.any_eq_false] at h4
    have h5 := h4 a ha
    simp only [beq_iff_eq] at h5
    exact fun hcontra => h5 (by simpa [mkEventDoc] using hcontra)
  · intro hf ht hnt hsa hvu hcol
    have hput : putEvent st (some user) id u false (.error ()) destroyOk =
        putApplyUpdate st user id u ev none destroyOk := by
      simp [putEvent, hf]
    rw [hput]
    have hslug : (applyUpdate ev u (some (generateSlug nt)) none).slug = generateSlug nt := rfl
    refine ⟨?_, hslug⟩
    unfold putApplyUpdate
    rw [if_neg hsa, ht]
    dsimp only
    rw [if_pos hnt, hvu]
    simp only [Bool.not_true, Bool.false_eq_true, if_false]
    have hcolx : st.events.any
        (fun e => e.id != id && e.slug == (applyUpdate ev u (some (generateSlug nt)) none).slug) = false := by
      rw [hslug]; exact hcol
    rw [hcolx]
    simp

/-- Claim C4 witness: a concrete create stores slug launch for title
Launch (keeping slugs unique), and a concrete owner retitle to Launch v2
succeeds storing the freshly derived slug launch-v2. -/
theorem c4_witness :
    postEvent st0 (some userA) pLaunch true (.ok urlCloud) =
      ({ status := 201, message := "Event Created Successfully" },
       { st0 with uploadedImages := st0.uploadedImages ++ [urlCloud],
                  events := st0.events ++ [mkEventDoc st0.nextId userA.id pLaunch urlCloud 1700000000],
                  nextId := st0.nextId + 1 }) ∧
    slugsUnique (st0.events ++ [mkEventDoc st0.nextId userA.id pLaunch urlCloud 1700000000]) ∧
    putEvent stOne (some userA) 1 uRetitle false (.error ()) true =
      ({ status := 200, message := "Event Updated Successfully" },
       { stOne with events := (replaceFirstBy (fun e => e.id == 1 && e.creatorId == userA.id)
           (applyUpdate evCloud uRetitle (some (generateSlug "Launch v2")) none) stOne.events) }) ∧
    (applyUpdate evCloud uRetitle (some (generateSlug "Launch v2")) none).slug =
      generateSlug "Launch v2" := by
  have hc := (c4_slug_amended "x" st0 userA pLaunch urlCloud 1700000000 1 uRetitle
      "Launch v2" evCloud true).2.1 rfl (by decide) (by decide) rfl
  have hu := (c4_slug_amended "x" stOne userA pLaunch urlCloud 1700000000 1 uRetitle
      "Launch v2" evCloud true).2.2 (by decide) rfl (by decide) (by decide) (by decide)
      (by decide)
  exact ⟨hc.1, hc.2.2 List.Pairwise.nil, hu.1, hu.2⟩

/-- Claim C6 counterexample: with the primary record deletion already
done, a failing external image destroy in the DELETE handler is not
merely logged - the handler answers status 500 instead of success,
because the destroy call is awaited inside the try block. -/
theorem c6_counterexample :
    (deleteEvent stOne (some userA) (some 1) false).1.status = 500 ∧
    (deleteEvent stOne (some userA) (some 1) false).2.events = [] :=
  ⟨rfl, rfl⟩

/-- Destroy-outcome independence of the PUT handler: the old-image
destroy is fired without await, so its success or failure changes
neither the response nor the document-store contents. -/
theorem putApplyUpdate_destroy_indep (st1 : St) (user : SessionUser) (id : Nat)
    (u : UpdatePayload) (ev : EventRec) (image? : Option String) (d1 d2 : Bool) :
    ((putApplyUpdate st1 user id u ev image? d1).1 =
      (putApplyUpdate st1 user id u ev image? d2).1) ∧
    ((putApplyUpdate st1 user id u ev image? d1).2.events =
      (putApplyUpdate st1 user id u ev image? d2).2.events) ∧
    ((putApplyUpdate st1 user id u ev image? d1).2.uploadedImages =
      (putApplyUpdate st1 user id u ev image? d2).2.uploadedImages) ∧
    ((putApplyUpdate st1 user id u ev image? d1).2.bookings =
      (putApplyUpdate st1 user id u ev image? d2).2.bookings) := by
  unfold putApplyUpdate
  split
  · exact ⟨rfl, rfl, rfl, rfl⟩
  · dsimp only
    split
    · exact ⟨rfl, rfl, rfl, rfl⟩
    · split
      · exact ⟨rfl, rfl, rfl, rfl⟩
      · split
        · cases d1 <;> cases d2 <;> exact ⟨rfl, rfl, rfl, rfl⟩
        · exact ⟨rfl, rfl, rfl, rfl⟩

/-- Claim C6 (amended): after a successful conditional delete the record
removal stands whatever the image destroy does - but in the DELETE
handler a failing destroy surfaces as a 500 error response rather than
being only logged, while in the PUT handler the old-image destroy is
fire-and-forget: its outcome changes neither the response nor the
document store nor the upload log. -/
theorem c6_image_cleanup_amended (st : St) (user : SessionUser) (id : Nat)
    (ev : EventRec) (u : UpdatePayload) (newFile : Bool)
    (upload : Except Unit String) :
    (st.events.find? (fun e => e.id == id && e.creatorId == user.id) = some ev →
     (ev.image != "") = true → (deletePublicId ev.image != "") = true →
      (deleteEvent st (some user) (some id) false).2.events =
        st.events.eraseP (fun e => e.id == id && e.creatorId == user.id) ∧
      (deleteEvent st (some user) (some id) false).1.status = 500 ∧
      (deleteEvent st (some user) (some id) true).2.events =
        st.events.eraseP (fun e => e.id == id && e.creatorId == user.id) ∧
      (deleteEvent st (some user) (some id) true).1.status = 200) ∧
    ((putEvent st (some user) id u newFile upload false).1 =
      (putEvent st (some user) id u newFile upload true).1 ∧
     (putEvent st (some user) id u newFile upload false).2.events =
      (putEvent st (some user) id u newFile upload true).2.events ∧
     (putEvent st (some user) id u newFile upload false).2.uploadedImages =
      (putEvent st (some user) id u newFile upload true).2.uploadedImages ∧
     (putEvent st (some user) id u newFile upload false).2.bookings =
      (putEvent st (some user) id u newFile upload true).2.bookings) := by
  constructor
  · intro hf him hpid
    refine ⟨?_, ?_, ?_, ?_⟩ <;> simp [deleteEvent, hf, him, hpid]
  · unfold putEvent
    dsimp only
    split
    · split
      · exact ⟨rfl, rfl, rfl, rfl⟩
      · exact ⟨rfl, rfl, rfl, rfl⟩
    · split
      · split
        · exact ⟨rfl, rfl, rfl, rfl⟩
        · exact putApplyUpdate_destroy_indep _ _ _ _ _ _ false true
      · exact putApplyUpdate_destroy_indep _ _ _ _ _ _ false true

/-- Claim C6 witness: the concrete one-event store with a cloudinary
image - the DELETE record removal stands for both destroy outcomes, with
status 500 on failure and 200 on success. -/
theorem c6_witness :
    (deleteEvent stOne (some userA) (some 1) false).2.events =
      stOne.events.eraseP (fun e => e.id == 1 && e.creatorId == userA.id) ∧
    (deleteEvent stOne (some userA) (some 1) false).1.status = 500 ∧
    (deleteEvent stOne (some userA) (some 1) true).2.events =
      stOne.events.eraseP (fun e => e.id == 1 && e.creatorId == userA.id) ∧
    (deleteEvent stOne (some userA) (some 1) true).1.status = 200 := by
  exact (c6_image_cleanup_amended stOne userA 1 evCloud uEmpty false (.error ())).1
    (by decide) (by decide) (by decide)

end DevEvents
